import Mathlib

/-!
Verification of `geocode_simple.py`: a batch geocoder that reads facility
rows (name, address), resolves each address through a GSI-first /
Nominatim-fallback chain, and emits a FeatureCollection document.

The Python code is shallowly embedded:
* JSON payloads and Python dynamic values are the inductive `JValue`;
* Python exceptions are `Except PyErr`; a `try/except` block is a `match`
  on the body's `Except` result;
* Python floats carry no arithmetic here (values only pass through), so
  they are modelled as exact rationals `ℚ`;
* the network is an oracle `net : HttpRequest → Except PyErr JValue`
  giving, for each outgoing request, either a raised transport error or
  the parsed JSON payload (`urlopen` + `json.loads` fused);
* `time.sleep` and provider calls are recorded as events in a trace list;
  advisory `print` diagnostics of the clients are returned as a string list.
-/

/-- JSON values / Python dynamic values. -/
inductive JValue where
  | null
  | bool (b : Bool)
  | num (q : ℚ)
  | str (s : String)
  | arr (elements : List JValue)
  | obj (fields : List (String × JValue))

/-- Python exceptions that the embedded code can raise. -/
inductive PyErr where
  | typeError
  | keyError (k : String)
  | indexError
  | valueError (s : String)
  | attributeError
  | netError (msg : String)
deriving DecidableEq

/-- Python truthiness (`if data:`) of a dynamic value. -/
def pyTruthy : JValue → Bool
  | .null => false
  | .bool b => b
  | .num q => decide (q ≠ 0)
  | .str s => decide (s ≠ "")
  | .arr elements => !elements.isEmpty
  | .obj fields => !fields.isEmpty

/-- Python `len(x)`: defined for strings, lists and dicts, `TypeError` otherwise. -/
def pyLen : JValue → Except PyErr Nat
  | .str s => .ok s.length
  | .arr elements => .ok elements.length
  | .obj fields => .ok fields.length
  | _ => .error .typeError

/-- Python `x[i]` with an integer index: list indexing (`IndexError` when out
of range), string indexing (yields a one-character string), `KeyError` on a
string-keyed dict, `TypeError` otherwise. -/
def pyIndexNat (i : Nat) : JValue → Except PyErr JValue
  | .arr elements =>
    match elements[i]? with
    | some x => .ok x
    | none => .error .indexError
  | .str s =>
    match s.data[i]? with
    | some c => .ok (.str (String.mk [c]))
    | none => .error .indexError
  | .obj _ => .error (.keyError (toString i))
  | _ => .error .typeError

/-- Python `x[k]` with a string key: dict lookup raising `KeyError` when the
key is missing, `TypeError` on non-dicts. -/
def pySubscript (k : String) : JValue → Except PyErr JValue
  | .obj fields =>
    match List.lookup k fields with
    | some v => .ok v
    | none => .error (.keyError k)
  | _ => .error .typeError

/-- Python `x.get(k, default)`: dict lookup with a default; non-dicts have no
`.get` attribute, so `AttributeError`. -/
def pyGetDefault (k : String) (dflt : JValue) : JValue → Except PyErr JValue
  | .obj fields => .ok ((List.lookup k fields).getD dflt)
  | _ => .error .attributeError

/-- Parse a plain decimal literal (optional sign, digits, optional fraction)
as Python `float(string)` does; other accepted Python forms (exponents,
`inf`, whitespace) are out of the model's scope and map to `none`. -/
def parseDecimal (s : String) : Option ℚ :=
  let cs := s.data
  let signed : Bool × List Char :=
    match cs with
    | '-' :: rest => (true, rest)
    | '+' :: rest => (false, rest)
    | _ => (false, cs)
  let body := signed.2
  let ip := body.takeWhile (fun c => c ≠ '.')
  let tail := body.drop ip.length
  let fracDigits : Option (List Char) :=
    match tail with
    | [] => some []
    | '.' :: rest => if rest.all Char.isDigit then some rest else none
    | _ => none
  match fracDigits with
  | none => none
  | some frac =>
    if ip.all Char.isDigit ∧ (ip ≠ [] ∨ frac ≠ []) then
      let ipVal : ℚ := (ip.foldl (fun n c => n * 10 + (c.toNat - 48)) 0 : ℕ)
      let fracVal : ℚ := ((frac.foldl (fun n c => n * 10 + (c.toNat - 48)) 0 : ℕ) : ℚ) / (10 ^ frac.length)
      let v := ipVal + fracVal
      some (if signed.1 then -v else v)
    else none

/-- Python `float(x)`: numbers pass through, booleans coerce, decimal strings
parse (`ValueError` on failure), everything else is a `TypeError`. -/
def pyFloat : JValue → Except PyErr ℚ
  | .num q => .ok q
  | .bool b => .ok (if b then 1 else 0)
  | .str s =>
    match parseDecimal s with
    | some q => .ok q
    | none => .error (.valueError s)
  | _ => .error .typeError

/-- A Python tuple `(lat, lon)` of dynamic values, as returned by the
geocoding clients. -/
abbrev Coord := JValue × JValue

/-- An outgoing HTTP GET request: base URL, query parameters in build order,
headers, and the blocking-read timeout. -/
structure HttpRequest where
  baseUrl : String
  params : List (String × String)
  headers : List (String × String)
  timeout : ℚ
deriving DecidableEq

/-- The request built by `geocode_address_nominatim` (source lines 13-27). -/
def nominatimRequest (address : String) : HttpRequest where
  baseUrl := "https://nominatim.openstreetmap.org/search?"
  params := [("q", address), ("format", "json"), ("limit", "1"), ("countrycodes", "jp")]
  headers := [("User-Agent", "EvacuationSiteMapper/1.0")]
  timeout := 10

/-- The request built by `geocode_address_gsi` (source lines 43-49). -/
def gsiRequest (address : String) : HttpRequest where
  baseUrl := "https://msearch.gsi.go.jp/address-search/AddressSearch?"
  params := [("q", address)]
  headers := []
  timeout := 10

/-- The network oracle: for each request, the behaviour of the remote
provider — a raised transport/parse error, or the decoded JSON payload. -/
abbrev Net := HttpRequest → Except PyErr JValue

/-- The diagnostic printed by `geocode_address_nominatim` on a caught
exception: the message text up to the exception, paired with the exception
it renders. -/
def nominatimDiag (address : String) (e : PyErr) : String × PyErr :=
  ("Nominatim APIエラー (" ++ address ++ "): ", e)

/-- The diagnostic printed by `geocode_address_gsi` on a caught exception. -/
def gsiDiag (address : String) (e : PyErr) : String × PyErr :=
  ("国土地理院APIエラー (" ++ address ++ "): ", e)

/-- Body of the `try:` block of `geocode_address_nominatim` after the payload
`data` has been decoded (source lines 30-33 and the fall-through to
`return None`): `if data and len(data) > 0:` then
`lat = float(data[0]["lat"]); lon = float(data[0]["lon"]); return lat, lon`. -/
def nominatimBody (data : JValue) : Except PyErr (Option Coord) :=
  if pyTruthy data then
    match pyLen data with
    | .error e => .error e
    | .ok n =>
      if n > 0 then
        match pyIndexNat 0 data with
        | .error e => .error e
        | .ok first =>
          match pySubscript "lat" first with
          | .error e => .error e
          | .ok latRaw =>
            match pyFloat latRaw with
            | .error e => .error e
            | .ok lat =>
              match pySubscript "lon" first with
              | .error e => .error e
              | .ok lonRaw =>
                match pyFloat lonRaw with
                | .error e => .error e
                | .ok lon => .ok (some (.num lat, .num lon))
      else .ok none
  else .ok none

/-- `geocode_address_nominatim` (source lines 9-37): issue the request, run
the body, catch any exception into a diagnostic line plus `None`. -/
def geocode_address_nominatim (net : Net) (address : String) :
    Option Coord × List (String × PyErr) :=
  match (net (nominatimRequest address)).bind nominatimBody with
  | .ok r => (r, [])
  | .error e => (none, [nominatimDiag address e])

/-- Body of the `try:` block of `geocode_address_gsi` (source lines 52-57 and
the fall-through to `return None`): `if data and len(data) > 0:` then
`geometry = data[0].get("geometry", {})`,
`coordinates = geometry.get("coordinates", [])`, and when
`len(coordinates) >= 2`, `lon, lat = coordinates[0], coordinates[1]` and
`return lat, lon` — note the swap, and note no `float()` conversion here. -/
def gsiBody (data : JValue) : Except PyErr (Option Coord) :=
  if pyTruthy data then
    match pyLen data with
    | .error e => .error e
    | .ok n =>
      if n > 0 then
        match pyIndexNat 0 data with
        | .error e => .error e
        | .ok first =>
          match pyGetDefault "geometry" (.obj []) first with
          | .error e => .error e
          | .ok geometry =>
            match pyGetDefault "coordinates" (.arr []) geometry with
            | .error e => .error e
            | .ok coordinates =>
              match pyLen coordinates with
              | .error e => .error e
              | .ok m =>
                if m ≥ 2 then
                  match pyIndexNat 0 coordinates with
                  | .error e => .error e
                  | .ok lon =>
                    match pyIndexNat 1 coordinates with
                    | .error e => .error e
                    | .ok lat => .ok (some (lat, lon))
                else .ok none
      else .ok none
  else .ok none

/-- `geocode_address_gsi` (source lines 39-61): issue the request, run the
body, catch any exception into a diagnostic line plus `None`. -/
def geocode_address_gsi (net : Net) (address : String) :
    Option Coord × List (String × PyErr) :=
  match (net (gsiRequest address)).bind gsiBody with
  | .ok r => (r, [])
  | .error e => (none, [gsiDiag address e])

/-- Observable events of the fallback resolver: which provider was invoked
for which address, and the `time.sleep` pauses (durations in seconds). -/
inductive Ev where
  | callGSI (address : String)
  | sleep (seconds : ℚ)
  | callNominatim (address : String)
deriving DecidableEq

/-- `geocode_with_fallback` (source lines 63-83): try the GSI client first;
if it returned a coordinate (`if coords:` — a 2-tuple is always truthy),
return it at once; otherwise `time.sleep(1)` and try Nominatim, returning
its result or `None`. The second component is the event trace. -/
def geocode_with_fallback (net : Net) (address : String) :
    Option Coord × List Ev :=
  let coords := (geocode_address_gsi net address).1
  match coords with
  | some c => (some c, [.callGSI address])
  | none =>
    let coords2 := (geocode_address_nominatim net address).1
    (coords2, [.callGSI address, .sleep 1, .callNominatim address])

/-- One CSV row as produced by `csv.DictReader`: an association list from
column header to cell text. -/
abbrev Row := List (String × String)

/-- `row[k]` on a `DictReader` row: `KeyError` when the column is absent. -/
def rowGet (row : Row) (k : String) : Except PyErr String :=
  match List.lookup k row with
  | some v => .ok v
  | none => .error (.keyError k)

/-- A successfully geocoded site (source lines 104-109): the dict appended to
`sites`, with `latitude`/`longitude` taken from the resolver's tuple. -/
structure Site where
  name : String
  address : String
  latitude : JValue
  longitude : JValue

/-- A failed site (source lines 112-115): the dict appended to `failed_sites`. -/
structure FailedSite where
  name : String
  address : String

/-- The per-row loop of `process_evacuation_sites` (source lines 94-118):
read `row['施設名']` and `row['所在地']` (a missing column raises and
aborts), geocode, and append to exactly one of the two accumulation lists.
Returns the final `(sites, failed_sites)` pair. -/
def processRows (net : Net) : List Row → Except PyErr (List Site × List FailedSite)
  | [] => .ok ([], [])
  | row :: rest =>
    match rowGet row "施設名" with
    | .error e => .error e
    | .ok name =>
      match rowGet row "所在地" with
      | .error e => .error e
      | .ok address =>
        match (geocode_with_fallback net address).1 with
        | some c =>
          match processRows net rest with
          | .error e => .error e
          | .ok (sites, failed) => .ok (⟨name, address, c.1, c.2⟩ :: sites, failed)
        | none =>
          match processRows net rest with
          | .error e => .error e
          | .ok (sites, failed) => .ok (sites, ⟨name, address⟩ :: failed)

/-- The GeoJSON feature built from a resolved site (source lines 134-144):
properties carry name/address, geometry coordinates are
`[longitude, latitude]` — the swap from the internal `(lat, lon)` order. -/
def mkFeature (s : Site) : JValue :=
  .obj [("type", .str "Feature"),
        ("properties", .obj [("name", .str s.name), ("address", .str s.address)]),
        ("geometry", .obj [("type", .str "Point"),
                           ("coordinates", .arr [s.longitude, s.latitude])])]

/-- The JSON object recorded for a failed site. -/
def mkFailed (fs : FailedSite) : JValue :=
  .obj [("name", .str fs.name), ("address", .str fs.address)]

/-- The result document assembled at source lines 121-149: fixed type and
title, features from `sites`, metadata counts, and a `failed_sites` key added
only when `failed_sites` is non-empty (`if failed_sites:`). `now` is the
`time.strftime` timestamp. -/
def mkResult (sites : List Site) (failed : List FailedSite) (now : String) : JValue :=
  .obj ([("type", .str "FeatureCollection"),
         ("features", .arr (sites.map mkFeature)),
         ("metadata", .obj [("title", .str "杉並区震災救援所"),
                            ("total_sites", .num (sites.length : ℚ)),
                            ("failed_geocoding", .num (failed.length : ℚ)),
                            ("generated_at", .str now)])] ++
        (if failed.isEmpty then [] else [("failed_sites", .arr (failed.map mkFailed))]))

/-- `process_evacuation_sites` (source lines 85-152). `inputFile` models the
`open(input_csv)` + `csv.DictReader` boundary: `.error` when the file cannot
be opened. The overall `.ok doc` is the document written to the output file;
`.error` means the run aborted with an uncaught exception and nothing was
written (the output file is only opened at line 151, after all rows). -/
def process_evacuation_sites (net : Net) (inputFile : Except PyErr (List Row))
    (now : String) : Except PyErr JValue :=
  match inputFile with
  | .error e => .error e
  | .ok rows =>
    match processRows net rows with
    | .error e => .error e
    | .ok (sites, failed) => .ok (mkResult sites failed now)

/-- Field lookup in a JSON object value. -/
def jGet (j : JValue) (k : String) : Option JValue :=
  match j with
  | .obj fields => List.lookup k fields
  | _ => none

/-- Lookup inside the `metadata` object of a result document. -/
def jMeta (j : JValue) (k : String) : Option JValue :=
  match jGet j "metadata" with
  | some m => jGet m k
  | none => none

/-- The per-row success view: the site the row contributes when both columns
are present and the resolver succeeds on its address. -/
def siteOfRow (net : Net) (row : Row) : Option Site :=
  match List.lookup "施設名" row, List.lookup "所在地" row with
  | some name, some address =>
    match (geocode_with_fallback net address).1 with
    | some c => some ⟨name, address, c.1, c.2⟩
    | none => none
  | _, _ => none

/-- The per-row failure view: the failed-site record the row contributes when
both columns are present and the resolver fails on its address. -/
def failedOfRow (net : Net) (row : Row) : Option FailedSite :=
  match List.lookup "施設名" row, List.lookup "所在地" row with
  | some name, some address =>
    match (geocode_with_fallback net address).1 with
    | some _ => none
    | none => some ⟨name, address⟩
  | _, _ => none

/-! ## Concrete fixtures used by witnesses -/

/-- A concrete input row with both required columns. -/
def rowA : Row := [("施設名", "天沼小学校"), ("所在地", "東京都杉並区天沼一丁目")]

/-- A one-row input. -/
def rowsOne : List Row := [rowA]

/-- A concrete generation timestamp. -/
def ts0 : String := "2025-08-25 12:00:00"

/-- A network where every request raises a transport error. -/
def netDown : Net := fun _ => .error (.netError "connection refused")

/-- The fields of the first result of a well-formed GSI payload. -/
def gsiFields : List (String × JValue) :=
  [("geometry", .obj [("type", .str "Point"),
                      ("coordinates", .arr [.num (139.6 : ℚ), .num (35.7 : ℚ)])])]

/-- A network where every request yields a well-formed GSI payload. -/
def netGSI : Net := fun _ => .ok (.arr [.obj gsiFields])

/-! ## Helper lemmas -/

theorem rowGet_ok_iff (row : Row) (k v : String) :
    rowGet row k = .ok v ↔ List.lookup k row = some v := by
  unfold rowGet
  cases h : List.lookup k row <;> simp

theorem fallback_of_gsi_some (net : Net) (address : String) (c : Coord)
    (h : (geocode_address_gsi net address).1 = some c) :
    geocode_with_fallback net address = (some c, [.callGSI address]) := by
  unfold geocode_with_fallback
  rw [h]

theorem fallback_of_gsi_none (net : Net) (address : String)
    (h : (geocode_address_gsi net address).1 = none) :
    geocode_with_fallback net address =
      ((geocode_address_nominatim net address).1,
       [.callGSI address, .sleep 1, .callNominatim address]) := by
  unfold geocode_with_fallback
  rw [h]

theorem processRows_ok_charact (net : Net) (rows : List Row) (sites : List Site)
    (failed : List FailedSite) (h : processRows net rows = .ok (sites, failed)) :
    sites = rows.filterMap (siteOfRow net) ∧
    failed = rows.filterMap (failedOfRow net) ∧
    ∀ row ∈ rows, (List.lookup "施設名" row).isSome ∧ (List.lookup "所在地" row).isSome := by
  induction rows generalizing sites failed with
  | nil =>
    unfold processRows at h
    simp at h
    simp [h.1, h.2]
  | cons row rest ih =>
    unfold processRows at h
    cases hn : List.lookup "施設名" row with
    | none => simp [rowGet, hn] at h
    | some name =>
      cases ha : List.lookup "所在地" row with
      | none => simp [rowGet, hn, ha] at h
      | some address =>
        simp only [rowGet, hn, ha] at h
        cases hc : (geocode_with_fallback net address).1 with
        | some c =>
          rw [hc] at h
          cases hr : processRows net rest with
          | error e => rw [hr] at h; exact absurd h (by simp)
          | ok pair =>
            obtain ⟨s, f⟩ := pair
            rw [hr] at h
            simp at h
            obtain ⟨hs, hf⟩ := h
            obtain ⟨ihs, ihf, ihmem⟩ := ih s f hr
            refine ⟨?_, ?_, ?_⟩
            · rw [← hs, ihs]
              simp [List.filterMap_cons, siteOfRow, hn, ha, hc]
            · rw [← hf, ihf]
              simp [List.filterMap_cons, failedOfRow, hn, ha, hc]
            · intro r hr2
              rcases List.mem_cons.mp hr2 with h1 | h2
              · subst h1; simp [hn, ha]
              · exact ihmem r h2
        | none =>
          rw [hc] at h
          cases hr : processRows net rest with
          | error e => rw [hr] at h; exact absurd h (by simp)
          | ok pair =>
            obtain ⟨s, f⟩ := pair
            rw [hr] at h
            simp at h
            obtain ⟨hs, hf⟩ := h
            obtain ⟨ihs, ihf, ihmem⟩ := ih s f hr
            refine ⟨?_, ?_, ?_⟩
            · rw [← hs, ihs]
              simp [List.filterMap_cons, siteOfRow, hn, ha, hc]
            · rw [← hf, ihf]
              simp [List.filterMap_cons, failedOfRow, hn, ha, hc]
            · intro r hr2
              rcases List.mem_cons.mp hr2 with h1 | h2
              · subst h1; simp [hn, ha]
              · exact ihmem r h2

theorem processRows_ok_length (net : Net) (rows : List Row) (sites : List Site)
    (failed : List FailedSite) (h : processRows net rows = .ok (sites, failed)) :
    sites.length + failed.length = rows.length := by
  induction rows generalizing sites failed with
  | nil =>
    unfold processRows at h
    simp at h
    simp [h.1, h.2]
  | cons row rest ih =>
    unfold processRows at h
    cases hn : List.lookup "施設名" row with
    | none => simp [rowGet, hn] at h
    | some name =>
      cases ha : List.lookup "所在地" row with
      | none => simp [rowGet, hn, ha] at h
      | some address =>
        simp only [rowGet, hn, ha] at h
        cases hc : (geocode_with_fallback net address).1 with
        | some c =>
          rw [hc] at h
          cases hr : processRows net rest with
          | error e => rw [hr] at h; exact absurd h (by simp)
          | ok pair =>
            obtain ⟨s, f⟩ := pair
            rw [hr] at h
            simp at h
            have := ih s f hr
            rw [← h.1, ← h.2]
            simp
            omega
        | none =>
          rw [hc] at h
          cases hr : processRows net rest with
          | error e => rw [hr] at h; exact absurd h (by simp)
          | ok pair =>
            obtain ⟨s, f⟩ := pair
            rw [hr] at h
            simp at h
            have := ih s f hr
            rw [← h.1, ← h.2]
            simp
            omega

theorem siteOfRow_exclusive (net : Net) (row : Row)
    (hn : (List.lookup "施設名" row).isSome) (ha : (List.lookup "所在地" row).isSome) :
    (siteOfRow net row).isSome = !(failedOfRow net row).isSome := by
  obtain ⟨name, hn⟩ := Option.isSome_iff_exists.mp hn
  obtain ⟨address, ha⟩ := Option.isSome_iff_exists.mp ha
  cases hc : (geocode_with_fallback net address).1 <;>
    simp [siteOfRow, failedOfRow, hn, ha, hc]

theorem processRows_error_of_missing_column (net : Net) (rows : List Row)
    (h : ∃ row ∈ rows, List.lookup "施設名" row = none ∨ List.lookup "所在地" row = none) :
    ∃ k, processRows net rows = .error (.keyError k) := by
  induction rows with
  | nil => simp at h
  | cons row rest ih =>
    obtain ⟨r, hr, hmiss⟩ := h
    rcases List.mem_cons.mp hr with h1 | h2
    · subst h1
      rcases hmiss with hm | hm
      · exact ⟨"施設名", by unfold processRows; simp [rowGet, hm]⟩
      · cases hn : List.lookup "施設名" r with
        | none => exact ⟨"施設名", by unfold processRows; simp [rowGet, hn]⟩
        | some name => exact ⟨"所在地", by unfold processRows; simp [rowGet, hn, hm]⟩
    · cases hn : List.lookup "施設名" row with
      | none => exact ⟨"施設名", by unfold processRows; simp [rowGet, hn]⟩
      | some name =>
        cases ha : List.lookup "所在地" row with
        | none => exact ⟨"所在地", by unfold processRows; simp [rowGet, hn, ha]⟩
        | some address =>
          obtain ⟨k, hk⟩ := ih ⟨r, h2, hmiss⟩
          refine ⟨k, ?_⟩
          unfold processRows
          simp only [rowGet, hn, ha]
          cases hc : (geocode_with_fallback net address).1 <;> simp [hk]

theorem jGet_mkResult_type (sites : List Site) (failed : List FailedSite) (now : String) :
    jGet (mkResult sites failed now) "type" = some (.str "FeatureCollection") := by
  cases failed <;> rfl

theorem jGet_mkResult_features (sites : List Site) (failed : List FailedSite) (now : String) :
    jGet (mkResult sites failed now) "features" = some (.arr (sites.map mkFeature)) := by
  cases failed <;> rfl

theorem jMeta_mkResult_total (sites : List Site) (failed : List FailedSite) (now : String) :
    jMeta (mkResult sites failed now) "total_sites" = some (.num (sites.length : ℚ)) := by
  cases failed <;> rfl

theorem jMeta_mkResult_failed_count (sites : List Site) (failed : List FailedSite) (now : String) :
    jMeta (mkResult sites failed now) "failed_geocoding" = some (.num (failed.length : ℚ)) := by
  cases failed <;> rfl

theorem jGet_mkResult_failed_list (sites : List Site) (failed : List FailedSite) (now : String) :
    jGet (mkResult sites failed now) "failed_sites" =
      if failed.isEmpty then none else some (.arr (failed.map mkFailed)) := by
  cases failed <;> rfl

theorem siteOfRow_resolves (net : Net) (row : Row) (s : Site)
    (h : siteOfRow net row = some s) :
    (geocode_with_fallback net s.address).1 = some (s.latitude, s.longitude) := by
  unfold siteOfRow at h
  cases hn : List.lookup "施設名" row with
  | none => rw [hn] at h; simp at h
  | some name =>
    cases ha : List.lookup "所在地" row with
    | none => rw [hn, ha] at h; simp at h
    | some address =>
      rw [hn, ha] at h
      simp only [] at h
      cases hres : (geocode_with_fallback net address).1 with
      | none => rw [hres] at h; simp at h
      | some c =>
        rw [hres] at h
        simp at h
        rw [← h]
        simpa using hres

/-! ## Claims -/

/-- C1: every input row contributes exactly one entry to either the resolved
sites or the failed sites (the two lists are the disjoint `filterMap`
partitions of the rows and their lengths sum to the row count), and in the
emitted result document `metadata.total_sites` equals the length of the
`features` list while `metadata.failed_geocoding` equals the length of the
failed-sites list. -/
theorem c1_row_partition_and_counts (net : Net) (rows : List Row) (now : String)
    (doc : JValue) (sites : List Site) (failed : List FailedSite) (row : Row)
    (h : process_evacuation_sites net (.ok rows) now = .ok doc)
    (hp : processRows net rows = .ok (sites, failed))
    (hrow : row ∈ rows) :
    sites = rows.filterMap (siteOfRow net) ∧
    failed = rows.filterMap (failedOfRow net) ∧
    (siteOfRow net row).isSome = !(failedOfRow net row).isSome ∧
    sites.length + failed.length = rows.length ∧
    jGet doc "features" = some (.arr (sites.map mkFeature)) ∧
    jMeta doc "total_sites" = some (.num ((sites.map mkFeature).length : ℚ)) ∧
    jMeta doc "failed_geocoding" = some (.num (failed.length : ℚ)) := by
  have hdoc : doc = mkResult sites failed now := by
    unfold process_evacuation_sites at h
    simp only [hp] at h
    simp at h
    exact h.symm
  obtain ⟨hsites, hfailed, hmem⟩ := processRows_ok_charact net rows sites failed hp
  have hlen := processRows_ok_length net rows sites failed hp
  have hexcl := siteOfRow_exclusive net row (hmem row hrow).1 (hmem row hrow).2
  subst hdoc
  refine ⟨hsites, hfailed, hexcl, hlen, jGet_mkResult_features .., ?_,
    jMeta_mkResult_failed_count ..⟩
  rw [jMeta_mkResult_total]
  simp

/-- Witness for C1 at a concrete one-row input whose geocoding fails. -/
theorem c1_witness :
    ([] : List Site) = rowsOne.filterMap (siteOfRow netDown) ∧
    [(⟨"天沼小学校", "東京都杉並区天沼一丁目"⟩ : FailedSite)] =
      rowsOne.filterMap (failedOfRow netDown) ∧
    (siteOfRow netDown rowA).isSome = !(failedOfRow netDown rowA).isSome ∧
    ([] : List Site).length + [(⟨"天沼小学校", "東京都杉並区天沼一丁目"⟩ : FailedSite)].length
      = rowsOne.length ∧
    jGet (mkResult [] [⟨"天沼小学校", "東京都杉並区天沼一丁目"⟩] ts0) "features" =
      some (.arr (([] : List Site).map mkFeature)) ∧
    jMeta (mkResult [] [⟨"天沼小学校", "東京都杉並区天沼一丁目"⟩] ts0) "total_sites" =
      some (.num ((([] : List Site).map mkFeature).length : ℚ)) ∧
    jMeta (mkResult [] [⟨"天沼小学校", "東京都杉並区天沼一丁目"⟩] ts0) "failed_geocoding" =
      some (.num (([(⟨"天沼小学校", "東京都杉並区天沼一丁目"⟩ : FailedSite)]).length : ℚ)) :=
  c1_row_partition_and_counts netDown rowsOne ts0
    (mkResult [] [⟨"天沼小学校", "東京都杉並区天沼一丁目"⟩] ts0)
    [] [⟨"天沼小学校", "東京都杉並区天沼一丁目"⟩] rowA
    rfl rfl (List.mem_singleton.mpr rfl)

/-- C2: the fallback resolver invokes the GSI client first; when GSI returns
a coordinate it is returned immediately and Nominatim is never invoked (no
`callNominatim` event in the trace); otherwise the resolver sleeps exactly 1
second, invokes Nominatim, and returns its result (present or absent). -/
theorem c2_fallback_order (net : Net) (address : String) :
    (∀ c, (geocode_address_gsi net address).1 = some c →
      geocode_with_fallback net address = (some c, [.callGSI address]) ∧
      Ev.callNominatim address ∉ (geocode_with_fallback net address).2) ∧
    ((geocode_address_gsi net address).1 = none →
      geocode_with_fallback net address =
        ((geocode_address_nominatim net address).1,
         [.callGSI address, .sleep 1, .callNominatim address])) := by
  constructor
  · intro c hc
    have h := fallback_of_gsi_some net address c hc
    refine ⟨h, ?_⟩
    rw [h]
    simp
  · intro hc
    exact fallback_of_gsi_none net address hc

/-- Witness for C2: a GSI success is returned at once with no Nominatim
call, and a GSI failure leads to sleep(1) followed by the Nominatim call. -/
theorem c2_witness :
    (geocode_with_fallback netGSI "東京都杉並区天沼一丁目" =
      (some (.num (35.7 : ℚ), .num (139.6 : ℚ)), [.callGSI "東京都杉並区天沼一丁目"]) ∧
     Ev.callNominatim "東京都杉並区天沼一丁目" ∉
       (geocode_with_fallback netGSI "東京都杉並区天沼一丁目").2) ∧
    geocode_with_fallback netDown "東京都杉並区天沼一丁目" =
      ((geocode_address_nominatim netDown "東京都杉並区天沼一丁目").1,
       [.callGSI "東京都杉並区天沼一丁目", .sleep 1,
        .callNominatim "東京都杉並区天沼一丁目"]) :=
  ⟨(c2_fallback_order netGSI "東京都杉並区天沼一丁目").1
      (.num (35.7 : ℚ), .num (139.6 : ℚ)) rfl,
   (c2_fallback_order netDown "東京都杉並区天沼一丁目").2 rfl⟩

/-- C3: every resolved site's emitted feature has geometry coordinates
`[longitude, latitude]`, while the resolver returned `(latitude, longitude)`
for its address; and the GSI client reads the provider's
`[lon, lat]` coordinates array and swaps it into `(lat, lon)`. -/
theorem c3_coordinate_order (net : Net) (rows : List Row) (now : String)
    (doc : JValue) (sites : List Site) (failed : List FailedSite) (s : Site)
    (lonV latV : JValue) (more tail : List JValue)
    (gfields rfields : List (String × JValue))
    (h : process_evacuation_sites net (.ok rows) now = .ok doc)
    (hp : processRows net rows = .ok (sites, failed))
    (hs : s ∈ sites)
    (hg : List.lookup "geometry" rfields = some (.obj gfields))
    (hc : List.lookup "coordinates" gfields = some (.arr (lonV :: latV :: more))) :
    (geocode_with_fallback net s.address).1 = some (s.latitude, s.longitude) ∧
    jGet (mkFeature s) "geometry" =
      some (.obj [("type", .str "Point"),
                  ("coordinates", .arr [s.longitude, s.latitude])]) ∧
    jGet doc "features" = some (.arr (sites.map mkFeature)) ∧
    gsiBody (.arr (.obj rfields :: tail)) = .ok (some (latV, lonV)) := by
  have hdoc : doc = mkResult sites failed now := by
    unfold process_evacuation_sites at h
    simp only [hp] at h
    simp at h
    exact h.symm
  obtain ⟨hsites, _, _⟩ := processRows_ok_charact net rows sites failed hp
  refine ⟨?_, rfl, ?_, ?_⟩
  · rw [hsites] at hs
    obtain ⟨row, _, hrow⟩ := List.mem_filterMap.mp hs
    exact siteOfRow_resolves net row s hrow
  · rw [hdoc]
    exact jGet_mkResult_features ..
  · unfold gsiBody
    simp [pyTruthy, pyLen, pyIndexNat, pyGetDefault, hg, hc]

/-- Witness for C3 at a concrete run where GSI succeeds with a
`[lon, lat]` payload. -/
theorem c3_witness :
    (geocode_with_fallback netGSI
        (Site.address ⟨"天沼小学校", "東京都杉並区天沼一丁目",
                       .num (35.7 : ℚ), .num (139.6 : ℚ)⟩)).1 =
      some (Site.latitude ⟨"天沼小学校", "東京都杉並区天沼一丁目",
                          .num (35.7 : ℚ), .num (139.6 : ℚ)⟩,
            Site.longitude ⟨"天沼小学校", "東京都杉並区天沼一丁目",
                            .num (35.7 : ℚ), .num (139.6 : ℚ)⟩) ∧
    jGet (mkFeature ⟨"天沼小学校", "東京都杉並区天沼一丁目",
                     .num (35.7 : ℚ), .num (139.6 : ℚ)⟩) "geometry" =
      some (.obj [("type", .str "Point"),
                  ("coordinates", .arr [.num (139.6 : ℚ), .num (35.7 : ℚ)])]) ∧
    jGet (mkResult [⟨"天沼小学校", "東京都杉並区天沼一丁目",
                     .num (35.7 : ℚ), .num (139.6 : ℚ)⟩] [] ts0) "features" =
      some (.arr ([(⟨"天沼小学校", "東京都杉並区天沼一丁目",
                     .num (35.7 : ℚ), .num (139.6 : ℚ)⟩ : Site)].map mkFeature)) ∧
    gsiBody (.arr [.obj gsiFields]) =
      .ok (some (.num (35.7 : ℚ), .num (139.6 : ℚ))) := by
  have h := c3_coordinate_order netGSI rowsOne ts0
    (mkResult [⟨"天沼小学校", "東京都杉並区天沼一丁目",
                .num (35.7 : ℚ), .num (139.6 : ℚ)⟩] [] ts0)
    [⟨"天沼小学校", "東京都杉並区天沼一丁目", .num (35.7 : ℚ), .num (139.6 : ℚ)⟩] []
    ⟨"天沼小学校", "東京都杉並区天沼一丁目", .num (35.7 : ℚ), .num (139.6 : ℚ)⟩
    (.num (139.6 : ℚ)) (.num (35.7 : ℚ)) [] []
    [("type", .str "Point"),
     ("coordinates", .arr [.num (139.6 : ℚ), .num (35.7 : ℚ)])] gsiFields
    rfl rfl (List.mem_singleton.mpr rfl) rfl rfl
  simpa using h

/-- C4: the result document has a `failed_sites` key iff at least one row
failed geocoding — the key is absent (not an empty list) when there are zero
failures — and when present its length equals `metadata.failed_geocoding`. -/
theorem c4_failed_sites_key (net : Net) (rows : List Row) (now : String)
    (doc : JValue) (sites : List Site) (failed : List FailedSite)
    (h : process_evacuation_sites net (.ok rows) now = .ok doc)
    (hp : processRows net rows = .ok (sites, failed)) :
    (jGet doc "failed_sites" = none ↔ failed = []) ∧
    (failed ≠ [] →
      jGet doc "failed_sites" = some (.arr (failed.map mkFailed)) ∧
      jMeta doc "failed_geocoding" =
        some (.num (((failed.map mkFailed).length : ℕ) : ℚ))) := by
  have hdoc : doc = mkResult sites failed now := by
    unfold process_evacuation_sites at h
    simp only [hp] at h
    simp at h
    exact h.symm
  subst hdoc
  rw [jGet_mkResult_failed_list]
  constructor
  · cases failed <;> simp
  · intro hne
    rw [jMeta_mkResult_failed_count]
    cases failed with
    | nil => exact absurd rfl hne
    | cons f fs => simp

/-- Witness for C4 at a run with exactly one failure. -/
theorem c4_witness :
    (jGet (mkResult [] [⟨"天沼小学校", "東京都杉並区天沼一丁目"⟩] ts0) "failed_sites" = none ↔
      ([⟨"天沼小学校", "東京都杉並区天沼一丁目"⟩] : List FailedSite) = []) ∧
    (([⟨"天沼小学校", "東京都杉並区天沼一丁目"⟩] : List FailedSite) ≠ [] →
      jGet (mkResult [] [⟨"天沼小学校", "東京都杉並区天沼一丁目"⟩] ts0) "failed_sites" =
        some (.arr (([⟨"天沼小学校", "東京都杉並区天沼一丁目"⟩] : List FailedSite).map mkFailed)) ∧
      jMeta (mkResult [] [⟨"天沼小学校", "東京都杉並区天沼一丁目"⟩] ts0) "failed_geocoding" =
        some (.num (((([⟨"天沼小学校", "東京都杉並区天沼一丁目"⟩] : List FailedSite).map mkFailed).length : ℕ) : ℚ))) :=
  c4_failed_sites_key netDown rowsOne ts0
    (mkResult [] [⟨"天沼小学校", "東京都杉並区天沼一丁目"⟩] ts0)
    [] [⟨"天沼小学校", "東京都杉並区天沼一丁目"⟩] rfl rfl

/-- C5: for every address and every provider behaviour, each client returns
a coordinate pair or `none` (never an exception — the catch-all `except`
turns any raised error into `none` plus a single diagnostic line, and a
clean body result is returned with no diagnostic). -/
theorem c5_clients_total (net : Net) (address : String) :
    ((geocode_address_nominatim net address).1 = none ∨
      ∃ c, (geocode_address_nominatim net address).1 = some c) ∧
    ((geocode_address_gsi net address).1 = none ∨
      ∃ c, (geocode_address_gsi net address).1 = some c) ∧
    (∀ e, (net (nominatimRequest address)).bind nominatimBody = .error e →
      geocode_address_nominatim net address = (none, [nominatimDiag address e])) ∧
    (∀ r, (net (nominatimRequest address)).bind nominatimBody = .ok r →
      geocode_address_nominatim net address = (r, [])) ∧
    (∀ e, (net (gsiRequest address)).bind gsiBody = .error e →
      geocode_address_gsi net address = (none, [gsiDiag address e])) ∧
    (∀ r, (net (gsiRequest address)).bind gsiBody = .ok r →
      geocode_address_gsi net address = (r, [])) := by
  refine ⟨?_, ?_, ?_, ?_, ?_, ?_⟩
  · cases h : (geocode_address_nominatim net address).1 with
    | none => exact Or.inl rfl
    | some c => exact Or.inr ⟨c, rfl⟩
  · cases h : (geocode_address_gsi net address).1 with
    | none => exact Or.inl rfl
    | some c => exact Or.inr ⟨c, rfl⟩
  · intro e he
    unfold geocode_address_nominatim
    rw [he]
  · intro r hr
    unfold geocode_address_nominatim
    rw [hr]
  · intro e he
    unfold geocode_address_gsi
    rw [he]
  · intro r hr
    unfold geocode_address_gsi
    rw [hr]

/-- Witness for C5: a transport failure is caught by both clients and mapped
to `none` with exactly one diagnostic line. -/
theorem c5_witness :
    geocode_address_nominatim netDown "東京都杉並区天沼一丁目" =
      (none, [nominatimDiag "東京都杉並区天沼一丁目" (.netError "connection refused")]) ∧
    geocode_address_gsi netDown "東京都杉並区天沼一丁目" =
      (none, [gsiDiag "東京都杉並区天沼一丁目" (.netError "connection refused")]) :=
  ⟨(c5_clients_total netDown "東京都杉並区天沼一丁目").2.2.1 _ rfl,
   (c5_clients_total netDown "東京都杉並区天沼一丁目").2.2.2.2.1 _ rfl⟩

/-- C7: input/output boundary errors are not recovered — a failing input
open propagates unchanged, and a row missing a required column makes the
batch abort with a `KeyError` instead of recording a failed site; in both
cases the overall run is `.error` and no result document is produced. -/
theorem c7_boundary_errors_fatal (net : Net) (now : String) (e : PyErr)
    (rows : List Row) (row : Row)
    (hrow : row ∈ rows)
    (hmiss : List.lookup "施設名" row = none ∨ List.lookup "所在地" row = none) :
    process_evacuation_sites net (.error e) now = .error e ∧
    ∃ k, process_evacuation_sites net (.ok rows) now = .error (.keyError k) := by
  constructor
  · rfl
  · obtain ⟨k, hk⟩ := processRows_error_of_missing_column net rows ⟨row, hrow, hmiss⟩
    refine ⟨k, ?_⟩
    unfold process_evacuation_sites
    simp only [hk]

/-- Witness for C7: a missing input file propagates, and a row without the
facility-name column aborts the run with a `KeyError`. -/
theorem c7_witness :
    process_evacuation_sites netDown (.error (.netError "no such file")) ts0 =
      .error (.netError "no such file") ∧
    ∃ k, process_evacuation_sites netDown (.ok [[("所在地", "東京都杉並区天沼一丁目")]]) ts0 =
      .error (.keyError k) :=
  c7_boundary_errors_fatal netDown ts0 (.netError "no such file")
    [[("所在地", "東京都杉並区天沼一丁目")]] [("所在地", "東京都杉並区天沼一丁目")]
    (List.mem_singleton.mpr rfl) (Or.inl rfl)

/-- C8: the features list presents the successfully resolved rows in input
order — the sites list is exactly the order-preserving `filterMap` of the
input rows, and the features are its pointwise image. -/
theorem c8_feature_order (net : Net) (rows : List Row) (now : String)
    (doc : JValue) (sites : List Site) (failed : List FailedSite)
    (h : process_evacuation_sites net (.ok rows) now = .ok doc)
    (hp : processRows net rows = .ok (sites, failed)) :
    sites = rows.filterMap (siteOfRow net) ∧
    jGet doc "features" =
      some (.arr ((rows.filterMap (siteOfRow net)).map mkFeature)) := by
  have hdoc : doc = mkResult sites failed now := by
    unfold process_evacuation_sites at h
    simp only [hp] at h
    simp at h
    exact h.symm
  obtain ⟨hsites, _, _⟩ := processRows_ok_charact net rows sites failed hp
  subst hdoc
  rw [jGet_mkResult_features, hsites]
  exact ⟨rfl, rfl⟩

/-- Witness for C8 at a concrete one-row input resolved by GSI. -/
theorem c8_witness :
    ([⟨"天沼小学校", "東京都杉並区天沼一丁目",
       .num (35.7 : ℚ), .num (139.6 : ℚ)⟩] : List Site) =
      rowsOne.filterMap (siteOfRow netGSI) ∧
    jGet (mkResult [⟨"天沼小学校", "東京都杉並区天沼一丁目",
                     .num (35.7 : ℚ), .num (139.6 : ℚ)⟩] [] ts0) "features" =
      some (.arr ((rowsOne.filterMap (siteOfRow netGSI)).map mkFeature)) :=
  c8_feature_order netGSI rowsOne ts0
    (mkResult [⟨"天沼小学校", "東京都杉並区天沼一丁目",
                .num (35.7 : ℚ), .num (139.6 : ℚ)⟩] [] ts0)
    [⟨"天沼小学校", "東京都杉並区天沼一丁目", .num (35.7 : ℚ), .num (139.6 : ℚ)⟩] []
    rfl rfl

/-- C9: `metadata.total_sites` counts only the successes — it equals
N − f for N input rows and f failures, so `total_sites + failed_geocoding`
is the number of input rows. -/
theorem c9_total_counts_successes (net : Net) (rows : List Row) (now : String)
    (doc : JValue) (sites : List Site) (failed : List FailedSite)
    (h : process_evacuation_sites net (.ok rows) now = .ok doc)
    (hp : processRows net rows = .ok (sites, failed)) :
    sites.length = rows.length - failed.length ∧
    sites.length + failed.length = rows.length ∧
    jMeta doc "total_sites" =
      some (.num (((rows.length - failed.length : ℕ) : ℚ))) ∧
    jMeta doc "failed_geocoding" = some (.num (failed.length : ℚ)) := by
  have hdoc : doc = mkResult sites failed now := by
    unfold process_evacuation_sites at h
    simp only [hp] at h
    simp at h
    exact h.symm
  have hlen := processRows_ok_length net rows sites failed hp
  have hs : sites.length = rows.length - failed.length := by omega
  subst hdoc
  refine ⟨hs, hlen, ?_, jMeta_mkResult_failed_count ..⟩
  rw [jMeta_mkResult_total, hs]

/-- Witness for C9 at a run with one success and zero failures. -/
theorem c9_witness :
    ([⟨"天沼小学校", "東京都杉並区天沼一丁目",
       .num (35.7 : ℚ), .num (139.6 : ℚ)⟩] : List Site).length =
      rowsOne.length - ([] : List FailedSite).length ∧
    ([⟨"天沼小学校", "東京都杉並区天沼一丁目",
       .num (35.7 : ℚ), .num (139.6 : ℚ)⟩] : List Site).length +
      ([] : List FailedSite).length = rowsOne.length ∧
    jMeta (mkResult [⟨"天沼小学校", "東京都杉並区天沼一丁目",
                      .num (35.7 : ℚ), .num (139.6 : ℚ)⟩] [] ts0) "total_sites" =
      some (.num (((rowsOne.length - ([] : List FailedSite).length : ℕ) : ℚ))) ∧
    jMeta (mkResult [⟨"天沼小学校", "東京都杉並区天沼一丁目",
                      .num (35.7 : ℚ), .num (139.6 : ℚ)⟩] [] ts0) "failed_geocoding" =
      some (.num (([] : List FailedSite).length : ℚ)) :=
  c9_total_counts_successes netGSI rowsOne ts0
    (mkResult [⟨"天沼小学校", "東京都杉並区天沼一丁目",
                .num (35.7 : ℚ), .num (139.6 : ℚ)⟩] [] ts0)
    [⟨"天沼小学校", "東京都杉並区天沼一丁目", .num (35.7 : ℚ), .num (139.6 : ℚ)⟩] []
    rfl rfl

/-- C10: a GSI first result that lacks `geometry`, lacks `coordinates`, or
has a coordinates array of fewer than two elements makes `gsiBody` return
`.ok none` through `.get` defaulting — not a raised error — so the client
yields the same `(none, [])` as for an empty result array, and the same
`none` value as for a transport error. -/
theorem c10_gsi_defaulting (address : String) (e : PyErr)
    (rfields gfields : List (String × JValue)) (cs : List JValue)
    (tail : List JValue) :
    (List.lookup "geometry" rfields = none →
      gsiBody (.arr (.obj rfields :: tail)) = .ok none ∧
      geocode_address_gsi (fun _ => .ok (.arr (.obj rfields :: tail))) address =
        (none, [])) ∧
    (List.lookup "geometry" rfields = some (.obj gfields) →
      List.lookup "coordinates" gfields = none →
      gsiBody (.arr (.obj rfields :: tail)) = .ok none ∧
      geocode_address_gsi (fun _ => .ok (.arr (.obj rfields :: tail))) address =
        (none, [])) ∧
    (List.lookup "geometry" rfields = some (.obj gfields) →
      List.lookup "coordinates" gfields = some (.arr cs) → cs.length < 2 →
      gsiBody (.arr (.obj rfields :: tail)) = .ok none ∧
      geocode_address_gsi (fun _ => .ok (.arr (.obj rfields :: tail))) address =
        (none, [])) ∧
    geocode_address_gsi (fun _ => .ok (.arr [])) address = (none, []) ∧
    (geocode_address_gsi (fun _ => .error e) address).1 = none := by
  refine ⟨?_, ?_, ?_, rfl, rfl⟩
  · intro hg
    have hb : gsiBody (.arr (.obj rfields :: tail)) = .ok none := by
      unfold gsiBody
      simp [pyTruthy, pyLen, pyIndexNat, pyGetDefault, hg]
    refine ⟨hb, ?_⟩
    unfold geocode_address_gsi
    simp only [Except.bind, hb]
  · intro hg hc
    have hb : gsiBody (.arr (.obj rfields :: tail)) = .ok none := by
      unfold gsiBody
      simp [pyTruthy, pyLen, pyIndexNat, pyGetDefault, hg, hc]
    refine ⟨hb, ?_⟩
    unfold geocode_address_gsi
    simp only [Except.bind, hb]
  · intro hg hc hlen
    have hb : gsiBody (.arr (.obj rfields :: tail)) = .ok none := by
      unfold gsiBody
      simp [pyTruthy, pyLen, pyIndexNat, pyGetDefault, hg, hc, Nat.not_le.mpr hlen]
    refine ⟨hb, ?_⟩
    unfold geocode_address_gsi
    simp only [Except.bind, hb]

/-- Witness for C10: a first result with no `geometry`, one whose geometry
has no `coordinates`, and one with a one-element coordinates array all make
the GSI client return `(none, [])`, identical to the empty-result case. -/
theorem c10_witness :
    (gsiBody (.arr [.obj [("title", .str "天沼")]]) = .ok none ∧
      geocode_address_gsi (fun _ => .ok (.arr [.obj [("title", .str "天沼")]]))
        "東京都杉並区天沼一丁目" = (none, [])) ∧
    (gsiBody (.arr [.obj [("geometry", .obj [("type", .str "Point")])]]) = .ok none ∧
      geocode_address_gsi
        (fun _ => .ok (.arr [.obj [("geometry", .obj [("type", .str "Point")])]]))
        "東京都杉並区天沼一丁目" = (none, [])) ∧
    (gsiBody (.arr [.obj [("geometry",
        .obj [("coordinates", .arr [.num (139.6 : ℚ)])])]]) = .ok none ∧
      geocode_address_gsi
        (fun _ => .ok (.arr [.obj [("geometry",
            .obj [("coordinates", .arr [.num (139.6 : ℚ)])])]]))
        "東京都杉並区天沼一丁目" = (none, [])) ∧
    geocode_address_gsi (fun _ => .ok (.arr [])) "東京都杉並区天沼一丁目" = (none, []) ∧
    (geocode_address_gsi (fun _ => .error .typeError) "東京都杉並区天沼一丁目").1 = none :=
  ⟨(c10_gsi_defaulting "東京都杉並区天沼一丁目" .typeError
      [("title", .str "天沼")] [] [] []).1 rfl,
   (c10_gsi_defaulting "東京都杉並区天沼一丁目" .typeError
      [("geometry", .obj [("type", .str "Point")])] [("type", .str "Point")] [] []).2.1
      rfl rfl,
   (c10_gsi_defaulting "東京都杉並区天沼一丁目" .typeError
      [("geometry", .obj [("coordinates", .arr [.num (139.6 : ℚ)])])]
      [("coordinates", .arr [.num (139.6 : ℚ)])] [.num (139.6 : ℚ)] []).2.2.1
      rfl rfl (by decide),
   (c10_gsi_defaulting "東京都杉並区天沼一丁目" .typeError [] [] [] []).2.2.2.1,
   (c10_gsi_defaulting "東京都杉並区天沼一丁目" .typeError [] [] [] []).2.2.2.2⟩

/-- Counterexample to C6: the first-invoked client is indeed the GSI client
(the trace of the fallback resolver starts with `callGSI`), but at a
concrete address its query carries only the address text — it has no
country-code restriction parameter at all. The `countrycodes` parameter
belongs to the Nominatim request, i.e. to the general-purpose fallback
client. -/
theorem c6_counterexample :
    (geocode_with_fallback netDown "東京都杉並区阿佐谷南1-15-1").2.head? =
      some (Ev.callGSI "東京都杉並区阿佐谷南1-15-1") ∧
    (gsiRequest "東京都杉並区阿佐谷南1-15-1").params =
      [("q", "東京都杉並区阿佐谷南1-15-1")] ∧
    List.lookup "countrycodes" (gsiRequest "東京都杉並区阿佐谷南1-15-1").params = none ∧
    List.lookup "countrycodes" (nominatimRequest "東京都杉並区阿佐谷南1-15-1").params =
      some "jp" :=
  ⟨rfl, rfl, rfl, rfl⟩

/-- C6 as amended: the fallback resolver invokes the GSI
(national-mapping-agency) client first, but that client's query carries
only the address text and no country-code parameter; the country-code
restriction, the format and limit parameters, and the client-identifier
header all belong to the general-purpose (Nominatim) fallback client. -/
theorem c6_amended_request_shapes (net : Net) (address : String) :
    (geocode_with_fallback net address).2.head? = some (Ev.callGSI address) ∧
    (gsiRequest address).params = [("q", address)] ∧
    List.lookup "countrycodes" (gsiRequest address).params = none ∧
    (gsiRequest address).headers = [] ∧
    List.lookup "format" (nominatimRequest address).params = some "json" ∧
    List.lookup "limit" (nominatimRequest address).params = some "1" ∧
    List.lookup "countrycodes" (nominatimRequest address).params = some "jp" ∧
    (nominatimRequest address).headers = [("User-Agent", "EvacuationSiteMapper/1.0")] := by
  refine ⟨?_, rfl, rfl, rfl, rfl, rfl, rfl, rfl⟩
  cases hres : (geocode_address_gsi net address).1 with
  | some c => rw [fallback_of_gsi_some net address c hres]; rfl
  | none => rw [fallback_of_gsi_none net address hres]; rfl
